import Mathlib

/-!
Verification of the Over The Horizon geometry/visibility engine.

The JavaScript source is shallowly embedded over the real numbers:
heights are meters, distances kilometers, and `Math.sqrt` becomes
`Real.sqrt`.  Where the behaviour of IEEE `NaN` matters (negative
arguments to `Math.sqrt`), a second, `Option`-valued embedding is used
in which `none` stands for `NaN`.
-/

namespace OverTheHorizon

/-! ### Constants (src/js/math/constants.js) -/

/-- Earth radius in kilometers, matching the Mathematica notebook value. -/
noncomputable def EARTH_RADIUS : ℝ := 7320

/-- Default observer height in meters. -/
noncomputable def DEFAULT_OBSERVER_HEIGHT : ℝ := 2

/-- Default ship height in meters. -/
noncomputable def DEFAULT_SHIP_HEIGHT : ℝ := 30

/-- Default atmospheric refraction factor. -/
noncomputable def DEFAULT_REFRACTION_FACTOR : ℝ := 1.33

/-! ### Geometry model (src/js/math/horizon.js, refraction-aware revision)

In the JavaScript source `earthRadius` defaults to `EARTH_RADIUS` and
`refractionFactor` defaults to `1.0`; call sites that rely on the
defaults are embedded by passing those values explicitly. -/

/-- Embeds `calculateHorizonDistance` (horizon.js lines 128-141):
`observerHeightKm = observerHeight / 1000`,
`effectiveEarthRadius = earthRadius * refractionFactor`,
result `Math.sqrt(2 * effectiveEarthRadius * observerHeightKm)`. -/
noncomputable def calculateHorizonDistance
    (observerHeight earthRadius refractionFactor : ℝ) : ℝ :=
  let observerHeightKm := observerHeight / 1000
  let effectiveEarthRadius := earthRadius * refractionFactor
  Real.sqrt (2 * effectiveEarthRadius * observerHeightKm)

/-- Embeds `calculateMaxVisibleDistance` (horizon.js lines 151-160):
the sum of the horizon distances of observer and object. -/
noncomputable def calculateMaxVisibleDistance
    (observerHeight objectHeight earthRadius refractionFactor : ℝ) : ℝ :=
  let observerHorizonDistance :=
    calculateHorizonDistance observerHeight earthRadius refractionFactor
  let objectHorizonDistance :=
    calculateHorizonDistance objectHeight earthRadius refractionFactor
  observerHorizonDistance + objectHorizonDistance

/-- Embeds `calculateVisiblePortion` (horizon.js lines 171-193):
returns 1 below the horizon distance, 0 at or beyond the maximum
visible distance, and otherwise the linear interpolation. -/
noncomputable def calculateVisiblePortion
    (distance observerHeight objectHeight earthRadius refractionFactor : ℝ) : ℝ :=
  let horizonDistance :=
    calculateHorizonDistance observerHeight earthRadius refractionFactor
  if distance ≤ horizonDistance then 1
  else
    let maxVisibleDistance :=
      calculateMaxVisibleDistance observerHeight objectHeight earthRadius refractionFactor
    if maxVisibleDistance ≤ distance then 0
    else
      let distanceBeyondHorizon := distance - horizonDistance
      let totalPossibleDistanceBeyondHorizon := maxVisibleDistance - horizonDistance
      1 - distanceBeyondHorizon / totalPossibleDistanceBeyondHorizon

/-- Embeds `calculateMinimumVisibleHeight` (horizon.js lines 203-223):
0 below the horizon distance, otherwise the inverse of the horizon
formula converted back to meters. -/
noncomputable def calculateMinimumVisibleHeight
    (distance observerHeight earthRadius refractionFactor : ℝ) : ℝ :=
  let horizonDistance :=
    calculateHorizonDistance observerHeight earthRadius refractionFactor
  if distance ≤ horizonDistance then 0
  else
    let distanceBeyondHorizon := distance - horizonDistance
    let effectiveEarthRadius := earthRadius * refractionFactor
    let minHeightKm :=
      distanceBeyondHorizon * distanceBeyondHorizon / (2 * effectiveEarthRadius)
    minHeightKm * 1000

/-- Embeds `calculateTelescopeVisibilityThreshold` (horizon.js lines
235-265).  The source also computes `horizonDistance` and
`shipApparentSize`, but neither value flows into the result, so they
are omitted here.  `telescopeMagnification` is likewise unused by the
source body. -/
noncomputable def calculateTelescopeVisibilityThreshold
    (observerHeight shipHeight telescopeFieldOfView telescopeMagnification
      earthRadius refractionFactor : ℝ) : ℝ :=
  let maxVisibleDistance :=
    calculateMaxVisibleDistance observerHeight shipHeight earthRadius refractionFactor
  let telescopeFieldOfViewRadians := telescopeFieldOfView * Real.pi / 180
  let significantPortionOfView : ℝ := 0.2
  let telescopeVisibilityDistance :=
    shipHeight / 1000 / (significantPortionOfView * telescopeFieldOfViewRadians)
  min maxVisibleDistance telescopeVisibilityDistance

/-! ### NaN-aware embedding for the defensive-programming claim

JavaScript `Math.sqrt` returns `NaN` on a negative argument and the
geometry functions contain no validation code, so `NaN` propagates to
the caller.  `none` models `NaN`. -/

/-- Models `Math.sqrt`: `NaN` (here `none`) on negative input. -/
noncomputable def jsSqrt (x : ℝ) : Option ℝ :=
  if x < 0 then none else some (Real.sqrt x)

/-- Embeds `calculateHorizonDistance` with IEEE `NaN` made explicit: the body
is the bare square root with no parameter check. -/
noncomputable def calculateHorizonDistanceJs
    (observerHeight earthRadius refractionFactor : ℝ) : Option ℝ :=
  jsSqrt (2 * (earthRadius * refractionFactor) * (observerHeight / 1000))

/-- Embeds `calculateMaxVisibleDistance` with `NaN` made explicit: JavaScript
addition returns `NaN` whenever either operand is `NaN`. -/
noncomputable def calculateMaxVisibleDistanceJs
    (observerHeight objectHeight earthRadius refractionFactor : ℝ) : Option ℝ :=
  match calculateHorizonDistanceJs observerHeight earthRadius refractionFactor,
        calculateHorizonDistanceJs objectHeight earthRadius refractionFactor with
  | some a, some b => some (a + b)
  | _, _ => none

/-! ### Application state (src/js/main.js lines 20-29)

`maxDistance` is an `Option` because a JavaScript object may simply
lack the property: the replacement literal of the reset handler omits it. -/

/-- The mutable application state object of main.js. -/
structure SimState where
  observerHeight : ℝ
  shipHeight : ℝ
  shipDistance : ℝ
  maxDistance : Option ℝ
  telescopeEnabled : Bool
  animationEnabled : Bool
  refractionFactor : ℝ

/-- The initial state literal (main.js lines 21-29). -/
noncomputable def initialState : SimState :=
  { observerHeight := DEFAULT_OBSERVER_HEIGHT
    shipHeight := DEFAULT_SHIP_HEIGHT
    shipDistance := 0
    maxDistance := some (calculateMaxVisibleDistance DEFAULT_OBSERVER_HEIGHT
      DEFAULT_SHIP_HEIGHT EARTH_RADIUS DEFAULT_REFRACTION_FACTOR)
    telescopeEnabled := false
    animationEnabled := false
    refractionFactor := DEFAULT_REFRACTION_FACTOR }

/-! ### Normal view renderer (src/js/rendering/normalView.js)

`renderNormalView` calls `calculateHorizonDistance(state.observerHeight)`
and `calculateMaxVisibleDistance(state.observerHeight, state.shipHeight)`
with no further arguments, so the defaults `earthRadius = EARTH_RADIUS`
and `refractionFactor = 1.0` apply. -/

/-- The horizon distance computed by `renderNormalView` (line 35). -/
noncomputable def normalViewHorizonDistance (state : SimState) : ℝ :=
  calculateHorizonDistance state.observerHeight EARTH_RADIUS 1

/-- The maximum visible distance computed by `renderNormalView`
(lines 38-41). -/
noncomputable def normalViewMaxVisibleDistance (state : SimState) : ℝ :=
  calculateMaxVisibleDistance state.observerHeight state.shipHeight EARTH_RADIUS 1

/-- The ship scale derived by `renderNormalView` (lines 57-93) as a
function of the ship distance `d`, the other parameters fixed. -/
noncomputable def normalViewShipScaleAt (observerHeight shipHeight d : ℝ) : ℝ :=
  let horizonDistance := calculateHorizonDistance observerHeight EARTH_RADIUS 1
  let baseScale := Real.sqrt (shipHeight / 50)
  if d ≤ horizonDistance then
    let distRat := d / horizonDistance
    (1 - 0.75 * distRat) * baseScale
  else 0.25 * baseScale

/-- The sink amount derived by `renderNormalView` (lines 74, 87-96) as
a function of the ship distance `d`, the other parameters fixed. -/
noncomputable def normalViewSinkAmountAt (observerHeight shipHeight d : ℝ) : ℝ :=
  let horizonDistance := calculateHorizonDistance observerHeight EARTH_RADIUS 1
  let maxVisibleDistance :=
    calculateMaxVisibleDistance observerHeight shipHeight EARTH_RADIUS 1
  if d ≤ horizonDistance then 0
  else
    let distanceBeyondHorizon := d - horizonDistance
    let totalPossibleDistanceBeyondHorizon := maxVisibleDistance - horizonDistance
    min 1 (distanceBeyondHorizon / totalPossibleDistanceBeyondHorizon)

/-- Ship scale of `renderNormalView` for a full state. -/
noncomputable def normalViewShipScale (state : SimState) : ℝ :=
  normalViewShipScaleAt state.observerHeight state.shipHeight state.shipDistance

/-- Sink amount of `renderNormalView` for a full state. -/
noncomputable def normalViewSinkAmount (state : SimState) : ℝ :=
  normalViewSinkAmountAt state.observerHeight state.shipHeight state.shipDistance

/-- The visible portion computed by `drawObserverInfo` (normalView.js
lines 299-304): `calculateVisiblePortion(shipDistance, observerHeight,
shipHeight, EARTH_RADIUS)`, the refraction factor left at its default. -/
noncomputable def drawObserverInfoVisiblePortion (state : SimState) : ℝ :=
  calculateVisiblePortion state.shipDistance state.observerHeight
    state.shipHeight EARTH_RADIUS 1

/-! ### Ship visual model helpers (js/ship.js, src/unnamed/part_007) -/

/-- Embeds `calculateShipScale` (part_007 lines 370-379). -/
noncomputable def calculateShipScale (distance horizonDistance baseScale : ℝ) : ℝ :=
  if distance ≤ horizonDistance then
    let distRat := distance / horizonDistance
    (1 - 0.75 * distRat) * baseScale
  else 0.25 * baseScale

/-- Embeds `calculateShipSinking` (part_007 lines 388-400). -/
noncomputable def calculateShipSinking
    (distance horizonDistance maxVisibleDistance : ℝ) : ℝ :=
  if distance ≤ horizonDistance then 0
  else
    let distanceBeyondHorizon := distance - horizonDistance
    let totalPossibleDistanceBeyondHorizon := maxVisibleDistance - horizonDistance
    min 1 (distanceBeyondHorizon / totalPossibleDistanceBeyondHorizon)

/-! ### Animation controller (js/ui/animation.js, src/unnamed/part_008)

`requestAnimationFrame` is modelled by passing in the identifier the
scheduler would return; `this.state` is passed and returned
explicitly.  `deltaTime` is `(timestamp - lastTimestamp) / 1000`
seconds, exactly as in `animate`. -/

/-- Mutable fields of the controller object. -/
structure AnimationController where
  lastTimestamp : ℝ
  animationSpeed : ℝ
  maxDistance : ℝ
  direction : ℝ
  animationId : Option ℕ

/-- The constructor (part_008 lines 15-23): speed 5 km/s, direction 1,
no scheduled frame, `maxDistance = state.maxDistance || 50` (JavaScript
`||` replaces both a missing property and `0` by the default 50). -/
noncomputable def AnimationController.init (state : SimState) : AnimationController :=
  { lastTimestamp := 0
    animationSpeed := 5
    maxDistance :=
      match state.maxDistance with
      | none => 50
      | some m => if m = 0 then 50 else m
    direction := 1
    animationId := none }

/-- One call of `animate` (part_008 lines 49-87): advance the distance
by `speed * deltaTime * direction`, clamp and reverse at the ends, and
schedule the next frame only while the animation is enabled. -/
noncomputable def AnimationController.animate (c : AnimationController)
    (state : SimState) (timestamp : ℝ) (nextFrameId : ℕ) :
    AnimationController × SimState :=
  let deltaTime := (timestamp - c.lastTimestamp) / 1000
  let newDistance := state.shipDistance + c.animationSpeed * deltaTime * c.direction
  let clamped :=
    if c.maxDistance ≤ newDistance then (c.maxDistance, (-1 : ℝ))
    else if newDistance ≤ 0 then ((0 : ℝ), (1 : ℝ))
    else (newDistance, c.direction)
  let nextId : Option ℕ := if state.animationEnabled then some nextFrameId else none
  ({ c with lastTimestamp := timestamp, direction := clamped.2, animationId := nextId },
   { state with shipDistance := clamped.1 })

/-- The un-clamped distance `animate` computes first:
`state.shipDistance + speed * deltaTime * direction` (part_008 lines
50-54); named here so theorems can refer to it. -/
noncomputable def animateNewDistance (c : AnimationController)
    (state : SimState) (timestamp : ℝ) : ℝ :=
  state.shipDistance + c.animationSpeed * ((timestamp - c.lastTimestamp) / 1000) * c.direction

/-- Embeds `stop` (part_008 lines 37-42): cancel the pending frame, if any. -/
def AnimationController.stop (c : AnimationController) : AnimationController :=
  match c.animationId with
  | some _ => { c with animationId := none }
  | none => c

/-- Embeds `start` (part_008 lines 28-33): schedule a frame when none is pending. -/
def AnimationController.start (c : AnimationController)
    (now : ℝ) (frameId : ℕ) : AnimationController :=
  match c.animationId with
  | none => { c with lastTimestamp := now, animationId := some frameId }
  | some _ => c

/-- Embeds `updateState` (part_008 lines 93-102): start or stop the loop
according to `state.animationEnabled`. -/
def AnimationController.updateState (c : AnimationController)
    (state : SimState) (now : ℝ) (frameId : ℕ) : AnimationController :=
  if state.animationEnabled ∧ c.animationId = none then c.start now frameId
  else if state.animationEnabled = false ∧ c.animationId ≠ none then c.stop
  else c

/-! ### Reset button handler (src/js/main.js lines 151-175)

main.js is an ES module, hence strict-mode code, and line 21 declares
`const state = {...}`.  The click handler evaluates a new object
literal (lines 161-168) that has no `maxDistance` property and then
executes `state = <literal>`; per the ECMAScript specification an
assignment to a `const` binding in strict mode throws a `TypeError`
before the binding is changed. -/

/-- JavaScript runtime errors surfaced by the embedding. -/
inductive JsError where
  | typeError : String → JsError
deriving DecidableEq

/-- main.js line 21 declares the `state` binding with `const`. -/
def stateBindingIsConst : Bool := true

/-- The strict-mode runtime message for an assignment to a constant. -/
def constAssignmentMessage : String := "Assignment to constant variable."

/-- The replacement object literal built by the reset handler
(main.js lines 161-168).  Note `maxDistance := none`: the literal has
no `maxDistance` property, unlike `initialState`. -/
noncomputable def resetNewState : SimState :=
  { observerHeight := 2
    shipHeight := 50
    shipDistance := 0
    maxDistance := none
    telescopeEnabled := false
    animationEnabled := false
    refractionFactor := 1.33 }

/-- The `state = {...}` assignment of the reset click handler: under
strict-mode semantics the `const` binding makes it throw. -/
noncomputable def resetClickHandler (s : SimState) : Except JsError SimState :=
  if stateBindingIsConst then
    Except.error (JsError.typeError constAssignmentMessage)
  else Except.ok resetNewState

/-- The state the `state` binding refers to after the click handler
runs: unchanged when the assignment threw. -/
noncomputable def resetClickResultState (s : SimState) : SimState :=
  match resetClickHandler s with
  | Except.ok s2 => s2
  | Except.error _ => s

/-! ### Concrete inputs used by witnesses -/

/-- A controller with one frame pending, used to exercise `animate`. -/
noncomputable def sampleController : AnimationController :=
  { lastTimestamp := 0
    animationSpeed := 5
    maxDistance := 50
    direction := 1
    animationId := some 3 }

/-- A state with the animation toggled off. -/
noncomputable def sampleState : SimState :=
  { observerHeight := 2
    shipHeight := 30
    shipDistance := 10
    maxDistance := some 50
    telescopeEnabled := false
    animationEnabled := false
    refractionFactor := 1.33 }

/-! ### Helper lemmas -/

theorem horizonDistance_nonneg (h R k : ℝ) :
    0 ≤ calculateHorizonDistance h R k :=
  Real.sqrt_nonneg _

theorem horizonDistance_pos {h R k : ℝ} (hh : 0 < h) (hR : 0 < R) (hk : 0 < k) :
    0 < calculateHorizonDistance h R k := by
  have hRk : 0 < R * k := mul_pos hR hk
  exact Real.sqrt_pos.mpr (by positivity)

theorem horizonDistance_of_zero (R k : ℝ) :
    calculateHorizonDistance 0 R k = 0 := by
  simp [calculateHorizonDistance]

/-- Claim C2: `calculateMaxVisibleDistance` is exactly the sum of the two
horizon distances, for all heights, Earth radii and refraction factors. -/
theorem claim_C2_maxVisibleDistance_is_sum (h1 h2 R k : ℝ) :
    calculateMaxVisibleDistance h1 h2 R k =
      calculateHorizonDistance h1 R k + calculateHorizonDistance h2 R k :=
  rfl

/-- Claim C1: `calculateVisiblePortion` returns 1 up to the horizon
distance, 0 from the maximum visible distance on, the linear
interpolation strictly in between (where the denominator is positive,
so no division by zero occurs), and in the degenerate case of a
zero-height object it returns 0 for every distance beyond the horizon. -/
theorem claim_C1_visiblePortion_piecewise (d ho H R k : ℝ)
    (hho : 0 ≤ ho) (hH : 0 ≤ H) (hR : 0 < R) (hk : 0 < k) :
    (d ≤ calculateHorizonDistance ho R k →
      calculateVisiblePortion d ho H R k = 1) ∧
    (calculateHorizonDistance ho R k < d →
      calculateMaxVisibleDistance ho H R k ≤ d →
      calculateVisiblePortion d ho H R k = 0) ∧
    (calculateHorizonDistance ho R k < d →
      d < calculateMaxVisibleDistance ho H R k →
      calculateHorizonDistance ho R k < calculateMaxVisibleDistance ho H R k ∧
      calculateVisiblePortion d ho H R k =
        1 - (d - calculateHorizonDistance ho R k) /
          (calculateMaxVisibleDistance ho H R k - calculateHorizonDistance ho R k)) ∧
    (H = 0 → calculateHorizonDistance ho R k < d →
      calculateVisiblePortion d ho H R k = 0) := by
  refine ⟨fun hle => ?_, fun hgt hge => ?_, fun hgt hlt => ?_, fun hzero hgt => ?_⟩
  · simp only [calculateVisiblePortion]
    rw [if_pos hle]
  · simp only [calculateVisiblePortion]
    rw [if_neg (not_le.mpr hgt), if_pos hge]
  · refine ⟨lt_trans hgt hlt, ?_⟩
    simp only [calculateVisiblePortion]
    rw [if_neg (not_le.mpr hgt), if_neg (not_le.mpr hlt)]
  · have hmax : calculateMaxVisibleDistance ho H R k =
        calculateHorizonDistance ho R k := by
      rw [claim_C2_maxVisibleDistance_is_sum, hzero, horizonDistance_of_zero, add_zero]
    simp only [calculateVisiblePortion]
    rw [if_neg (not_le.mpr hgt), if_pos (hmax ▸ le_of_lt hgt)]

/-- Claim C1 witness: with Earth radius 250 and refraction 1 the horizon
distance of a 2 m observer is exactly 1 km, and a ship at 0.5 km is
fully visible. -/
theorem claim_C1_visiblePortion_witness :
    calculateVisiblePortion 0.5 2 30 250 1 = 1 := by
  have hhd : calculateHorizonDistance 2 250 1 = 1 := by
    simp only [calculateHorizonDistance]
    rw [show 2 * (250 * (1 : ℝ)) * (2 / 1000) = 1 by norm_num, Real.sqrt_one]
  exact (claim_C1_visiblePortion_piecewise 0.5 2 30 250 1 (by norm_num) (by norm_num)
    (by norm_num) (by norm_num)).1 (by rw [hhd]; norm_num)

/-- Claim C6: beyond the horizon, `calculateMinimumVisibleHeight` is the
exact inverse of the horizon formula — feeding the returned height back
into `calculateHorizonDistance` and adding the horizon
distance recovers the original distance exactly (over ℝ); at or below
the horizon distance it returns 0. -/
theorem claim_C6_minimumVisibleHeight_roundtrip (d ho R k : ℝ)
    (hR : 0 < R) (hk : 0 < k) :
    (calculateHorizonDistance ho R k < d →
      calculateHorizonDistance (calculateMinimumVisibleHeight d ho R k) R k +
        calculateHorizonDistance ho R k = d) ∧
    (d ≤ calculateHorizonDistance ho R k →
      calculateMinimumVisibleHeight d ho R k = 0) := by
  have hRk : (0 : ℝ) < R * k := mul_pos hR hk
  constructor
  · intro hgt
    have hd0 : 0 ≤ d - calculateHorizonDistance ho R k := by linarith
    have hmin : calculateMinimumVisibleHeight d ho R k =
        (d - calculateHorizonDistance ho R k) *
          (d - calculateHorizonDistance ho R k) / (2 * (R * k)) * 1000 := by
      simp only [calculateMinimumVisibleHeight]
      rw [if_neg (not_le.mpr hgt)]
    have harg : 2 * (R * k) * (calculateMinimumVisibleHeight d ho R k / 1000) =
        (d - calculateHorizonDistance ho R k) *
          (d - calculateHorizonDistance ho R k) := by
      rw [hmin]
      field_simp
      ring
    calc calculateHorizonDistance (calculateMinimumVisibleHeight d ho R k) R k +
          calculateHorizonDistance ho R k
        = Real.sqrt ((d - calculateHorizonDistance ho R k) *
            (d - calculateHorizonDistance ho R k)) +
            calculateHorizonDistance ho R k := by
          simp only [calculateHorizonDistance] at harg ⊢
          rw [harg]
      _ = (d - calculateHorizonDistance ho R k) +
            calculateHorizonDistance ho R k := by
          rw [Real.sqrt_mul_self hd0]
      _ = d := by ring
  · intro hle
    simp only [calculateMinimumVisibleHeight]
    rw [if_pos hle]

/-- Claim C6 witness: observer 2 m, Earth radius 250, refraction 1 gives
horizon distance 1 km; the round trip at distance 2 km recovers 2. -/
theorem claim_C6_minimumVisibleHeight_witness :
    calculateHorizonDistance (calculateMinimumVisibleHeight 2 2 250 1) 250 1 +
      calculateHorizonDistance 2 250 1 = 2 := by
  have hhd : calculateHorizonDistance 2 250 1 = 1 := by
    simp only [calculateHorizonDistance]
    rw [show 2 * (250 * (1 : ℝ)) * (2 / 1000) = 1 by norm_num, Real.sqrt_one]
  exact (claim_C6_minimumVisibleHeight_roundtrip 2 2 250 1 (by norm_num)
    (by norm_num)).1 (by rw [hhd]; norm_num)

/-- Claim C10: the `state = ...` assignment in the reset click handler
targets the `const`-declared module binding, so it throws a `TypeError`
and the state fields are left unchanged; moreover the replacement
literal omits the `maxDistance` property that the initial state has. -/
theorem claim_C10_reset_assignment_throws :
    (∀ s : SimState, resetClickHandler s =
      Except.error (JsError.typeError constAssignmentMessage)) ∧
    (∀ s : SimState, resetClickResultState s = s) ∧
    resetNewState.maxDistance = none ∧
    initialState.maxDistance ≠ none :=
  ⟨fun _ => rfl, fun _ => rfl, rfl, fun h => Option.noConfusion h⟩

/-- Claim C8: contrary to the specification, `renderNormalView` derives
its thresholds with the default arguments — Earth radius `EARTH_RADIUS`
and refraction factor 1 — so replacing the field `refractionFactor`
by any other value never changes the thresholds or the visibility
readout. -/
theorem claim_C8_normalView_ignores_refraction (s : SimState) (k2 : ℝ) :
    normalViewHorizonDistance { s with refractionFactor := k2 } =
      normalViewHorizonDistance s ∧
    normalViewMaxVisibleDistance { s with refractionFactor := k2 } =
      normalViewMaxVisibleDistance s ∧
    normalViewHorizonDistance s =
      calculateHorizonDistance s.observerHeight EARTH_RADIUS 1 ∧
    normalViewMaxVisibleDistance s =
      calculateMaxVisibleDistance s.observerHeight s.shipHeight EARTH_RADIUS 1 ∧
    drawObserverInfoVisiblePortion { s with refractionFactor := k2 } =
      drawObserverInfoVisiblePortion s :=
  ⟨rfl, rfl, rfl, rfl, rfl⟩

/-- Claim C5 counterexample: inside the UI domains (observer 1 m, ship
100 m) with the default field of view 5° and magnification, the default
Earth radius and refraction 1, the telescope visibility threshold
(= 18/π ≈ 5.73 km) exceeds the horizon distance of the observer
(= √14.64 ≈ 3.83 km). -/
theorem claim_C5_counterexample :
    ¬ calculateTelescopeVisibilityThreshold 1 100 5 10 EARTH_RADIUS 1 ≤
        calculateHorizonDistance 1 EARTH_RADIUS 1 := by
  rw [not_le]
  simp only [calculateTelescopeVisibilityThreshold, calculateMaxVisibleDistance,
    calculateHorizonDistance, EARTH_RADIUS]
  rw [lt_min_iff]
  constructor
  · have hpos : (0 : ℝ) < Real.sqrt (2 * (7320 * 1) * (100 / 1000)) :=
      Real.sqrt_pos.mpr (by norm_num)
    linarith
  · have h1 : Real.sqrt (2 * ((7320 : ℝ) * 1) * (1 / 1000)) < 4 := by
      rw [Real.sqrt_lt' (by norm_num)]
      norm_num
    have hpipos : (0 : ℝ) < 0.2 * (5 * Real.pi / 180) := by
      have := Real.pi_pos
      positivity
    have h2 : (4 : ℝ) < 100 / 1000 / (0.2 * (5 * Real.pi / 180)) := by
      rw [lt_div_iff hpipos]
      nlinarith [Real.pi_lt_315]
    linarith

/-- Claim C5 amended: the telescope visibility threshold never exceeds
the maximum visible distance (it is a `min` with it), but it is not
clamped to the horizon distance of the observer. -/
theorem claim_C5_amended_threshold_le_maxVisible
    (observerHeight shipHeight fov mag earthRadius refractionFactor : ℝ) :
    calculateTelescopeVisibilityThreshold observerHeight shipHeight fov mag
        earthRadius refractionFactor ≤
      calculateMaxVisibleDistance observerHeight shipHeight earthRadius
        refractionFactor :=
  min_le_left _ _

/-- Claim C7 counterexample: called with the negative height -1,
`calculateHorizonDistance` neither raises an error nor clamps to 0 — it
silently returns `NaN` (modelled as `none`), because its body is the
bare square root of a negative number with no parameter validation. -/
theorem claim_C7_counterexample :
    calculateHorizonDistanceJs (-1) EARTH_RADIUS 1 = none ∧
    calculateHorizonDistanceJs (-1) EARTH_RADIUS 1 ≠ some 0 := by
  have h : calculateHorizonDistanceJs (-1) EARTH_RADIUS 1 = none := by
    simp only [calculateHorizonDistanceJs, jsSqrt, EARTH_RADIUS]
    rw [if_pos (by norm_num)]
  exact ⟨h, by rw [h]; exact fun hc => Option.noConfusion hc⟩

/-- Claim C7 amended: the Geometry Model functions perform no parameter
validation at all.  A negative height makes `calculateHorizonDistance`
return `NaN` (here `none`), the `NaN` propagates through
`calculateMaxVisibleDistance`, and on non-negative heights with positive
radius and refraction the functions simply return the real value —
there is no `InvalidParameter` rejection and no clamping anywhere. -/
theorem claim_C7_amended_no_validation (h R k : ℝ)
    (hh : h < 0) (hR : 0 < R) (hk : 0 < k) :
    calculateHorizonDistanceJs h R k = none ∧
    (∀ h2 : ℝ, calculateMaxVisibleDistanceJs h h2 R k = none) ∧
    (∀ h2 : ℝ, 0 ≤ h2 →
      calculateHorizonDistanceJs h2 R k = some (calculateHorizonDistance h2 R k)) := by
  have hRk : (0 : ℝ) < R * k := mul_pos hR hk
  have hneg : calculateHorizonDistanceJs h R k = none := by
    simp only [calculateHorizonDistanceJs, jsSqrt]
    rw [if_pos (by nlinarith)]
  refine ⟨hneg, fun h2 => ?_, fun h2 hh2 => ?_⟩
  · simp only [calculateMaxVisibleDistanceJs, hneg]
  · simp only [calculateHorizonDistanceJs, jsSqrt, calculateHorizonDistance]
    rw [if_neg (by rw [not_lt]; positivity)]

/-- Claim C7 amended witness: the concrete call with height -1. -/
theorem claim_C7_amended_witness :
    calculateHorizonDistanceJs (-1) 7320 1 = none :=
  (claim_C7_amended_no_validation (-1) 7320 1 (by norm_num) (by norm_num)
    (by norm_num)).1

/-- Claim C3: in `renderNormalView` the ship scale is
`(1 - 0.75 * (d / horizonDistance)) * sqrt(shipHeight / 50)` up to the
horizon, `0.25 * sqrt(shipHeight / 50)` beyond it, the two branches
agree at the horizon (value `0.25 * baseScale`), the scale is a
continuous function of the distance and never zero, and the sink
amount is continuous and 0 at the horizon boundary. -/
theorem claim_C3_normalView_scale_continuity (ho H : ℝ)
    (hho : 0 < ho) (hH : 0 < H) :
    (∀ d, 0 ≤ d → d ≤ calculateHorizonDistance ho EARTH_RADIUS 1 →
      normalViewShipScaleAt ho H d =
        (1 - 0.75 * (d / calculateHorizonDistance ho EARTH_RADIUS 1)) *
          Real.sqrt (H / 50)) ∧
    (∀ d, calculateHorizonDistance ho EARTH_RADIUS 1 < d →
      normalViewShipScaleAt ho H d = 0.25 * Real.sqrt (H / 50)) ∧
    normalViewShipScaleAt ho H (calculateHorizonDistance ho EARTH_RADIUS 1) =
      0.25 * Real.sqrt (H / 50) ∧
    Continuous (normalViewShipScaleAt ho H) ∧
    (∀ d, 0 ≤ d → 0 < normalViewShipScaleAt ho H d) ∧
    normalViewSinkAmountAt ho H (calculateHorizonDistance ho EARTH_RADIUS 1) = 0 ∧
    Continuous (normalViewSinkAmountAt ho H) := by
  have hER : (0 : ℝ) < EARTH_RADIUS := by norm_num [EARTH_RADIUS]
  have hhd : 0 < calculateHorizonDistance ho EARTH_RADIUS 1 :=
    horizonDistance_pos hho hER one_pos
  have hbs : 0 < Real.sqrt (H / 50) :=
    Real.sqrt_pos.mpr (div_pos hH (by norm_num))
  refine ⟨fun d hd0 hdle => ?_, fun d hdgt => ?_, ?_, ?_, fun d hd0 => ?_, ?_, ?_⟩
  · simp only [normalViewShipScaleAt]
    rw [if_pos hdle]
  · simp only [normalViewShipScaleAt]
    rw [if_neg (not_le.mpr hdgt)]
  · simp only [normalViewShipScaleAt]
    rw [if_pos le_rfl, div_self hhd.ne']
    norm_num
  · have heq : normalViewShipScaleAt ho H = fun d =>
        if d ≤ calculateHorizonDistance ho EARTH_RADIUS 1 then
          (1 - 0.75 * (d / calculateHorizonDistance ho EARTH_RADIUS 1)) *
            Real.sqrt (H / 50)
        else 0.25 * Real.sqrt (H / 50) := rfl
    rw [heq]
    refine Continuous.if_le ?_ ?_ continuous_id continuous_const ?_
    · exact (continuous_const.sub (continuous_const.mul
        (continuous_id.div_const _))).mul continuous_const
    · exact continuous_const
    · intro x hx
      rw [hx, div_self hhd.ne']
      norm_num
  · simp only [normalViewShipScaleAt]
    split_ifs with hc
    · have hdiv1 : d / calculateHorizonDistance ho EARTH_RADIUS 1 ≤ 1 :=
        (div_le_one hhd).mpr hc
      have hdiv0 : 0 ≤ d / calculateHorizonDistance ho EARTH_RADIUS 1 :=
        div_nonneg hd0 hhd.le
      nlinarith
    · nlinarith
  · simp only [normalViewSinkAmountAt]
    rw [if_pos le_rfl]
  · have heq : normalViewSinkAmountAt ho H = fun d =>
        if d ≤ calculateHorizonDistance ho EARTH_RADIUS 1 then 0
        else min 1 ((d - calculateHorizonDistance ho EARTH_RADIUS 1) /
          (calculateMaxVisibleDistance ho H EARTH_RADIUS 1 -
            calculateHorizonDistance ho EARTH_RADIUS 1)) := rfl
    rw [heq]
    refine Continuous.if_le continuous_const ?_ continuous_id continuous_const ?_
    · exact continuous_const.min ((continuous_id.sub continuous_const).div_const _)
    · intro x hx
      rw [hx, sub_self, zero_div]
      norm_num

/-- Claim C3 witness: observer 2 m, ship 50 m, distance exactly the
horizon distance gives scale 0.25 * √(50/50). -/
theorem claim_C3_normalView_scale_witness :
    normalViewShipScaleAt 2 50 (calculateHorizonDistance 2 EARTH_RADIUS 1) =
      0.25 * Real.sqrt (50 / 50) :=
  (claim_C3_normalView_scale_continuity 2 50 (by norm_num) (by norm_num)).2.2.1

/-- Claim C4: the sink amount is 0 up to the horizon distance, a
monotone non-decreasing function of the distance, exactly 1 at the
maximum visible distance, bounded by 1 everywhere, and the inline sink
computation of `renderNormalView` coincides with `calculateShipSinking`
applied to the thresholds of the renderer. -/
theorem claim_C4_sink_monotone (ho H R k : ℝ)
    (hho : 0 ≤ ho) (hH : 0 < H) (hR : 0 < R) (hk : 0 < k) :
    (∀ d, d ≤ calculateHorizonDistance ho R k →
      calculateShipSinking d (calculateHorizonDistance ho R k)
        (calculateMaxVisibleDistance ho H R k) = 0) ∧
    Monotone (fun d => calculateShipSinking d (calculateHorizonDistance ho R k)
      (calculateMaxVisibleDistance ho H R k)) ∧
    calculateShipSinking (calculateMaxVisibleDistance ho H R k)
      (calculateHorizonDistance ho R k) (calculateMaxVisibleDistance ho H R k) = 1 ∧
    (∀ d, calculateShipSinking d (calculateHorizonDistance ho R k)
      (calculateMaxVisibleDistance ho H R k) ≤ 1) ∧
    (∀ s : SimState, normalViewSinkAmount s =
      calculateShipSinking s.shipDistance (normalViewHorizonDistance s)
        (normalViewMaxVisibleDistance s)) := by
  have hsum : calculateMaxVisibleDistance ho H R k =
      calculateHorizonDistance ho R k + calculateHorizonDistance H R k := rfl
  have hHpos : 0 < calculateHorizonDistance H R k := horizonDistance_pos hH hR hk
  have hlt : calculateHorizonDistance ho R k < calculateMaxVisibleDistance ho H R k := by
    rw [hsum]; linarith
  refine ⟨fun d hle => ?_, fun a b hab => ?_, ?_, fun d => ?_, fun s => rfl⟩
  · simp only [calculateShipSinking]
    rw [if_pos hle]
  · simp only [calculateShipSinking]
    split_ifs with h1 h2 h2
    · exact le_rfl
    · exact le_min (by norm_num)
        (div_nonneg (by linarith) (by linarith))
    · exact absurd (hab.trans h2) h1
    · exact min_le_min le_rfl
        ((div_le_div_right (by linarith)).mpr (by linarith))
  · simp only [calculateShipSinking]
    rw [if_neg (not_le.mpr hlt), div_self (sub_ne_zero.mpr hlt.ne')]
    norm_num
  · simp only [calculateShipSinking]
    split_ifs with h1
    · norm_num
    · exact min_le_left _ _

/-- Claim C4 witness: with observer 2 m, ship 50 m, the default Earth
radius 7320 and refraction 1, the sink amount at the maximum visible
distance is exactly 1. -/
theorem claim_C4_sink_monotone_witness :
    calculateShipSinking (calculateMaxVisibleDistance 2 50 7320 1)
      (calculateHorizonDistance 2 7320 1)
      (calculateMaxVisibleDistance 2 50 7320 1) = 1 :=
  (claim_C4_sink_monotone 2 50 7320 1 (by norm_num) (by norm_num)
    (by norm_num) (by norm_num)).2.2.1

/-- Claim C9: one `animate` call advances the distance by
`speed * elapsedSeconds * direction`, clamps it into `[0, maxDistance]`
(reversing the direction to -1 at `maxDistance` and to 1 at 0, leaving
it unchanged strictly in between), schedules a next frame exactly when
the animation is enabled (so toggling it off stops all future ticks,
also via `updateState`), and `stop` is idempotent. -/
theorem claim_C9_animation_driver (c : AnimationController) (s : SimState)
    (ts : ℝ) (fid : ℕ) (hmax : 0 ≤ c.maxDistance) :
    (0 ≤ ((c.animate s ts fid).2).shipDistance ∧
      ((c.animate s ts fid).2).shipDistance ≤ c.maxDistance) ∧
    (c.maxDistance ≤ animateNewDistance c s ts →
      ((c.animate s ts fid).1).direction = -1 ∧
      ((c.animate s ts fid).2).shipDistance = c.maxDistance) ∧
    (animateNewDistance c s ts < c.maxDistance → animateNewDistance c s ts ≤ 0 →
      ((c.animate s ts fid).1).direction = 1 ∧
      ((c.animate s ts fid).2).shipDistance = 0) ∧
    (0 < animateNewDistance c s ts → animateNewDistance c s ts < c.maxDistance →
      ((c.animate s ts fid).1).direction = c.direction ∧
      ((c.animate s ts fid).2).shipDistance = animateNewDistance c s ts) ∧
    (s.animationEnabled = false → ((c.animate s ts fid).1).animationId = none) ∧
    (s.animationEnabled = true → ((c.animate s ts fid).1).animationId = some fid) ∧
    (s.animationEnabled = false → (c.updateState s ts fid).animationId = none) ∧
    c.stop.animationId = none ∧
    c.stop.stop = c.stop := by
  refine ⟨?_, fun hge => ?_, fun hlt hle => ?_, fun h0 hlt => ?_,
    fun hoff => ?_, fun hon => ?_, fun hoff => ?_, ?_, ?_⟩
  · simp only [AnimationController.animate]
    split_ifs with h1 h2
    · exact ⟨hmax, le_rfl⟩
    · exact ⟨le_rfl, hmax⟩
    · constructor <;> simp only [] <;> linarith [not_le.mp h1, not_le.mp h2]
  · simp only [AnimationController.animate, animateNewDistance] at hge ⊢
    rw [if_pos hge]
    exact ⟨rfl, rfl⟩
  · simp only [AnimationController.animate, animateNewDistance] at hlt hle ⊢
    rw [if_neg (not_le.mpr hlt), if_pos hle]
    exact ⟨rfl, rfl⟩
  · simp only [AnimationController.animate, animateNewDistance] at h0 hlt ⊢
    rw [if_neg (not_le.mpr hlt), if_neg (not_le.mpr h0)]
    exact ⟨rfl, rfl⟩
  · simp only [AnimationController.animate, hoff]
    rfl
  · simp only [AnimationController.animate, hon]
    rfl
  · rcases hid : c.animationId with _ | n <;>
      simp [AnimationController.updateState, AnimationController.stop, hoff, hid]
  · rcases hid : c.animationId with _ | n <;>
      simp [AnimationController.stop, hid]
  · rcases hid : c.animationId with _ | n <;>
      simp [AnimationController.stop, hid]

/-- Claim C9 witness: a concrete tick.  With the animation off, a
pending frame id 3, distance 10 km, speed 5 km/s, direction 1 and a
1-second tick, the resulting distance stays within `[0, 50]`. -/
theorem claim_C9_animation_driver_witness :
    0 ≤ ((sampleController.animate sampleState 1000 7).2).shipDistance ∧
    ((sampleController.animate sampleState 1000 7).2).shipDistance ≤
      sampleController.maxDistance :=
  (claim_C9_animation_driver sampleController sampleState 1000 7
    (by norm_num [sampleController])).1

end OverTheHorizon
